import Mathlib

/-!
Verification of the network-interface-watcher supervisor
(networkMonitor.cpp) against its specification.

The supervisor accepts worker connections on a Unix domain socket,
performs a two-token handshake, multiplexes worker reports with select,
and coordinates shutdown.  Below, the relevant C++ functions are
shallowly embedded: file descriptors are Int (accept and read return
negative values on error), byte buffers are List Nat (each element one
byte), fd sets are duplicate-free Int lists, and the fixed-size
clientFds array is a total map Nat -> Int (the C array has
MAX_CONNECTIONS cells; the map lets us observe the out-of-bounds index
the code can reach).  I/O outcomes (accept result, bytes read, write
success) are explicit environment inputs.
-/

namespace NetworkMonitor

/-- BUFFER_SIZE constant from networkMonitor.cpp (256). -/
def BUFFER_SIZE : Nat := 256

/-- MAX_CONNECTIONS constant from networkMonitor.cpp (2). -/
def MAX_CONNECTIONS : Nat := 2

/-- The SIGINT signal number (2) handled by handleSignal. -/
def SIGINT : Nat := 2

/-- ASCII bytes of the worker readiness token "ready_to_monitor". -/
def readyToMonitorBytes : List Nat :=
  [114, 101, 97, 100, 121, 95, 116, 111, 95, 109, 111, 110, 105, 116, 111, 114]

/-- ASCII bytes of the supervisor reply token "start_monitoring". -/
def startMonitoringBytes : List Nat :=
  [115, 116, 97, 114, 116, 95, 109, 111, 110, 105, 116, 111, 114, 105, 110, 103]

/-- The C-string content of a byte buffer: the bytes strictly before the
first nul terminator.  strcmp compares exactly these bytes. -/
def cString (bs : List Nat) : List Nat :=
  bs.takeWhile (fun b => b ≠ 0)

/-- FD_SET: add a descriptor to an fd set (sets have no duplicates). -/
def fdSet (fd : Int) (s : List Int) : List Int :=
  if fd ∈ s then s else fd :: s

/-- FD_CLR: remove a descriptor from an fd set. -/
def fdClr (fd : Int) (s : List Int) : List Int :=
  s.filter (fun x => x ≠ fd)

/-- Outcome of the handshake read in handleNewConnection: either the
read call fails (returns a negative count) or it returns the bytes it
placed at the front of the buffer. -/
inductive HandshakeRead where
  | err : HandshakeRead
  | ok : List Nat → HandshakeRead

/-- Environment of one invocation of handleNewConnection: the value
accept returns, the outcome of the handshake read, and whether the
handshake write succeeds. -/
structure ConnEnv where
  acceptFd : Int
  readRes : HandshakeRead
  writeOk : Bool

/-- Supervisor state threaded through the main loop: the select watch
set, the running maximum descriptor, the clientFds array (as a total
map, index MAX_CONNECTIONS and beyond being the cells the C code can
overrun), the activeClients counter, and the list of descriptors closed
so far (most recent first). -/
structure SupState where
  masterSet : List Int
  maxFd : Int
  clientFds : Nat → Int
  activeClients : Nat
  closedFds : List Int

/-- Observable trace of one handleNewConnection call: the message
successfully written back to the peer, if any, and whether the accepted
connection was closed (rejected) during the call. -/
structure ConnTrace where
  wrote : Option (List Nat)
  closedConn : Bool

/-- handleNewConnection from networkMonitor.cpp, lines 105-147.
Mirrors the source order: the accept result is stored into
clientFds[activeClients] first; on accept failure the function returns;
otherwise FD_SET adds the new descriptor to masterSet BEFORE the
handshake; a failed read, a token mismatch, or a failed write closes the
descriptor and returns (never clearing it from masterSet); only on a
successful round-trip are maxFd and activeClients updated.  The buffer
is nul-terminated at index bytesRead, so strcmp sees the read bytes up
to the first nul: cString (bytes ++ [0]). -/
def handleNewConnection (st : SupState) (env : ConnEnv) : SupState × ConnTrace :=
  let fd := env.acceptFd
  let st0 := { st with clientFds := Function.update st.clientFds st.activeClients fd }
  if fd < 0 then
    (st0, ⟨none, false⟩)
  else
    let st1 := { st0 with masterSet := fdSet fd st0.masterSet }
    match env.readRes with
    | .err =>
        ({ st1 with closedFds := fd :: st1.closedFds }, ⟨none, true⟩)
    | .ok bytes =>
        if cString (bytes ++ [0]) = readyToMonitorBytes then
          if env.writeOk then
            ({ st1 with maxFd := max st1.maxFd fd,
                        activeClients := st1.activeClients + 1 },
             ⟨some (startMonitoringBytes ++ [0]), false⟩)
          else
            ({ st1 with closedFds := fd :: st1.closedFds }, ⟨none, true⟩)
        else
          ({ st1 with closedFds := fd :: st1.closedFds }, ⟨none, true⟩)

/-- Outcome of one read of an active connection in processMonitorData:
a positive count together with the bytes placed at the front of the
zeroed buffer, a zero count (peer closed), or a negative count (error). -/
inductive DataRead where
  | pos : List Nat → DataRead
  | zero : DataRead
  | neg : DataRead

/-- The BUFFER_SIZE-byte buffer contents after bzero and a read that
returned these bytes (read writes them at the front; the rest stays
zero).  processMonitorData hands exactly this buffer to the display
stream. -/
def reportBuffer (bytes : List Nat) : List Nat :=
  bytes ++ List.replicate (BUFFER_SIZE - bytes.length) 0

/-- Result of one processMonitorData call: the updated clientFds array,
the descriptors it closed (in order), the buffers it forwarded to the
display stream, the slot indices it serviced (in order), and the slots
for which it logged a read error with the underlying errno.  The source
has no branch for a negative read count, so errorLogs is never extended
and such a slot is left untouched. -/
structure PmdResult where
  clientFds : Nat → Int
  closedFds : List Int
  displayed : List (List Nat)
  serviced : List Nat
  errorLogs : List Nat

/-- One iteration of the processMonitorData loop body for slot i:
if FD_ISSET(clientFds[i], readSet), the slot is read; a positive read
forwards the buffer to the display stream; a zero read closes the
descriptor and stores -1 in the slot; a negative read does nothing
(no close, no removal, no log — the source has no such branch). -/
def pmdStep (readSet : List Int) (reads : Nat → DataRead)
    (acc : PmdResult) (i : Nat) : PmdResult :=
  if acc.clientFds i ∈ readSet then
    match reads i with
    | .pos bytes =>
        { acc with displayed := acc.displayed ++ [reportBuffer bytes],
                   serviced := acc.serviced ++ [i] }
    | .zero =>
        { acc with clientFds := Function.update acc.clientFds i (-1),
                   closedFds := acc.closedFds ++ [acc.clientFds i],
                   serviced := acc.serviced ++ [i] }
    | .neg =>
        { acc with serviced := acc.serviced ++ [i] }
  else acc

/-- The processMonitorData for-loop over the given slot indices. -/
def pmdGo (readSet : List Int) (reads : Nat → DataRead) :
    List Nat → PmdResult → PmdResult
  | [], acc => acc
  | i :: rest, acc => pmdGo readSet reads rest (pmdStep readSet reads acc i)

/-- processMonitorData from networkMonitor.cpp, lines 155-174: iterate
slots 0 .. activeClients-1 in ascending order; service each slot whose
descriptor is in readSet.  Note the function receives only readSet; it
never touches masterSet. -/
def processMonitorData (activeClients : Nat) (clientFds : Nat → Int)
    (readSet : List Int) (reads : Nat → DataRead) : PmdResult :=
  pmdGo readSet reads (List.range activeClients) ⟨clientFds, [], [], [], []⟩

/-- Environment of one main-loop iteration after select returns:
whether FD_ISSET(serverFd, readSet) holds, the accept-path environment
used in that case, and the ready set and read outcomes used otherwise. -/
structure IterEnv where
  serverReady : Bool
  connEnv : ConnEnv
  readSet : List Int
  reads : Nat → DataRead

/-- One iteration of the main server loop (networkMonitor.cpp, lines
278-294): if the listening descriptor is ready, handleNewConnection
runs and NO client slot is serviced this iteration (the dispatch is an
if/else); otherwise processMonitorData runs.  Returns the new state and
the list of slots serviced this iteration.  The loop performs no
capacity check before routing to the accept path. -/
def mainIteration (st : SupState) (env : IterEnv) : SupState × List Nat :=
  if env.serverReady then
    ((handleNewConnection st env.connEnv).1, [])
  else
    let r := processMonitorData st.activeClients st.clientFds env.readSet env.reads
    ({ st with clientFds := r.clientFds,
               closedFds := st.closedFds ++ r.closedFds }, r.serviced)

/-- Run the main server loop over a sequence of iteration environments. -/
def loopRun (st : SupState) (envs : List IterEnv) : SupState :=
  envs.foldl (fun s e => (mainIteration s e).1) st

/-- Environment of one spawnInterfaceMonitor call: the resource
(interface) name passed to the worker, whether fork succeeds, whether
the exec of the worker image succeeds in the child, and the process id
the OS assigns when fork succeeds (positive). -/
structure SpawnEnv where
  name : String
  forkOk : Bool
  execOk : Bool
  pid : Nat
deriving DecidableEq

/-- Outcome of spawnInterfaceMonitor as observed by the parent and the
child: the parent return value, whether the child logged an exec
failure, and whether the child exited immediately (exec failed). -/
structure SpawnOutcome where
  ret : Int
  childLoggedExecError : Bool
  childExited : Bool
deriving DecidableEq

/-- spawnInterfaceMonitor from networkMonitor.cpp, lines 62-80.  fork
failure returns -1 to the parent.  When fork succeeds, the parent
returns the child pid regardless of whether the child's execlp
succeeds: an exec failure is logged by the child, which then exits,
while the parent still sees the positive pid. -/
def spawnInterfaceMonitor (env : SpawnEnv) : SpawnOutcome :=
  if env.forkOk then
    if env.execOk then ⟨(env.pid : Int), false, false⟩
    else ⟨(env.pid : Int), true, true⟩
  else ⟨-1, false, false⟩

/-- Loop body of startMonitoring with the processIds accumulator made
explicit: for each interface, spawn a worker and push the returned pid
when it is positive. -/
def startMonitoringGo : List SpawnEnv → List Int → List Int
  | [], acc => acc
  | e :: rest, acc =>
      if (spawnInterfaceMonitor e).ret > 0 then
        startMonitoringGo rest (acc ++ [(spawnInterfaceMonitor e).ret])
      else startMonitoringGo rest acc

/-- startMonitoring from networkMonitor.cpp, lines 87-95: spawn one
worker per interface and push the returned pid into processIds when it
is positive. -/
def startMonitoring (envs : List SpawnEnv) : List Int :=
  startMonitoringGo envs []

/-- Result of the cleanup routine: the pids whose termination signal
failed (logged, loop continues), the children reaped by the wait loop,
the watch set after the FD_CLR calls, the descriptors closed (clients
in slot order, then the listening descriptor), whether the unlink
failure was logged, and whether cleanup ran to completion. -/
structure CleanupResult where
  signalFailLogs : List Int
  reaped : List Int
  masterSet : List Int
  closedFds : List Int
  unlinkFailureLogged : Bool
  completed : Bool

/-- cleanup from networkMonitor.cpp, lines 184-215.  Every pid in
processIds is signalled (a kill failure is logged and the loop
continues); the wait loop then reaps children until wait reports none
remain — the supervisor's children are exactly the successfully forked
pids in processIds, and shutdown assumes workers exit on the signal, so
the loop reaps precisely processIds; each slot descriptor clientFds[i],
i < activeClients, is removed from masterSet and closed; the listening
descriptor is closed; unlink of the socket path is attempted, and its
failure is logged but never escalated (cleanup always completes). -/
def cleanup (serverFd : Int) (activeClients : Nat) (clientFds : Nat → Int)
    (masterSet : List Int) (processIds : List Int)
    (killOk : Int → Bool) (unlinkOk : Bool) : CleanupResult :=
  let clientList := (List.range activeClients).map clientFds
  { signalFailLogs := processIds.filter (fun p => !(killOk p))
    reaped := processIds
    masterSet := clientList.foldl (fun s fd => fdClr fd s) masterSet
    closedFds := clientList ++ [serverFd]
    unlinkFailureLogged := !unlinkOk
    completed := true }

/-- Observable effect of one handleSignal invocation: the value stored
into g_isRunning, if any, and the number of messages the handler writes
to the standard output stream. -/
structure SignalEffect where
  runningSet : Option Bool
  stdoutMessages : Nat
deriving DecidableEq

/-- handleSignal from networkMonitor.cpp, lines 221-228: on SIGINT it
prints a shutdown message to std::cout and sets g_isRunning to false;
on any other signal it prints an "Undefined signal" message and leaves
the flag alone.  Either branch performs stream output from the
signal-delivery context. -/
def handleSignal (signal : Nat) : SignalEffect :=
  if signal = SIGINT then ⟨some false, 1⟩ else ⟨none, 1⟩

/-!  Theorems settling the claims.  -/

/-- Claim C1 (code divergence, evaluated at the failing input): starting
from the fresh state (watch set holding only the listening descriptor 3,
no clients), three connection events whose peers all complete the
handshake drive activeClients to MAX_CONNECTIONS after two events and
then to MAX_CONNECTIONS + 1: the dispatch in main routes the third event
to the accept path although the registry is already at capacity (it
checks only readiness of the listening descriptor, never capacity), and
the accepted descriptor 6 is stored at clientFds index MAX_CONNECTIONS,
one past the last cell of the two-cell C array. -/
theorem capacity_invariant_violated :
    (loopRun ⟨[3], 3, fun _ => 0, 0, []⟩
      [⟨true, ⟨4, .ok readyToMonitorBytes, true⟩, [], fun _ => .neg⟩,
       ⟨true, ⟨5, .ok readyToMonitorBytes, true⟩, [], fun _ => .neg⟩]).activeClients
      = MAX_CONNECTIONS
    ∧ (loopRun ⟨[3], 3, fun _ => 0, 0, []⟩
      [⟨true, ⟨4, .ok readyToMonitorBytes, true⟩, [], fun _ => .neg⟩,
       ⟨true, ⟨5, .ok readyToMonitorBytes, true⟩, [], fun _ => .neg⟩,
       ⟨true, ⟨6, .ok readyToMonitorBytes, true⟩, [], fun _ => .neg⟩]).activeClients
      = MAX_CONNECTIONS + 1
    ∧ (loopRun ⟨[3], 3, fun _ => 0, 0, []⟩
      [⟨true, ⟨4, .ok readyToMonitorBytes, true⟩, [], fun _ => .neg⟩,
       ⟨true, ⟨5, .ok readyToMonitorBytes, true⟩, [], fun _ => .neg⟩,
       ⟨true, ⟨6, .ok readyToMonitorBytes, true⟩, [], fun _ => .neg⟩]).clientFds
        MAX_CONNECTIONS = 6 := by
  decide

/-- Claim C3 (code divergence, evaluated at the failing input): a peer
accepted on descriptor 5 that sends "hello" (bytes 104 101 108 108 111)
is rejected and closed, yet descriptor 5 IS in masterSet afterwards:
handleNewConnection calls FD_SET before the handshake and never clears
the descriptor on rejection.  The same holds when the handshake read
fails. -/
theorem watch_set_grows_before_handshake :
    ((handleNewConnection ⟨[3], 3, fun _ => 0, 0, []⟩
        ⟨5, .ok [104, 101, 108, 108, 111], true⟩).2.closedConn = true
      ∧ (5 : Int) ∈ (handleNewConnection ⟨[3], 3, fun _ => 0, 0, []⟩
          ⟨5, .ok [104, 101, 108, 108, 111], true⟩).1.masterSet
      ∧ (handleNewConnection ⟨[3], 3, fun _ => 0, 0, []⟩
          ⟨5, .ok [104, 101, 108, 108, 111], true⟩).1.activeClients = 0)
    ∧ ((handleNewConnection ⟨[3], 3, fun _ => 0, 0, []⟩
          ⟨5, .err, true⟩).2.closedConn = true
      ∧ (5 : Int) ∈ (handleNewConnection ⟨[3], 3, fun _ => 0, 0, []⟩
          ⟨5, .err, true⟩).1.masterSet) := by
  decide

/-- Claim C4 (code divergence, evaluated at the failing input): one
active client on descriptor 5; the peer closes (zero-length read).  The
iteration closes descriptor 5 and stores -1 in the slot, but masterSet
still contains the now-closed descriptor 5 afterwards:
processMonitorData receives only the per-iteration ready set and never
removes anything from masterSet, so the next select call is handed a
closed descriptor. -/
theorem peer_close_keeps_descriptor_watched :
    ((mainIteration ⟨[3, 5], 5, fun _ => 5, 1, []⟩
        ⟨false, ⟨-1, .err, false⟩, [5], fun _ => .zero⟩).1.clientFds 0 = -1)
    ∧ (5 : Int) ∈ (mainIteration ⟨[3, 5], 5, fun _ => 5, 1, []⟩
        ⟨false, ⟨-1, .err, false⟩, [5], fun _ => .zero⟩).1.closedFds
    ∧ (mainIteration ⟨[3, 5], 5, fun _ => 5, 1, []⟩
        ⟨false, ⟨-1, .err, false⟩, [5], fun _ => .zero⟩).1.masterSet = [3, 5] := by
  decide

/-- Claim C5 (code divergence, evaluated at the failing input): one
active client on descriptor 5 whose read returns a negative count.  The
slot is serviced but nothing else happens: the descriptor is not closed,
the slot keeps its descriptor (not marked closed), and no error is
logged — processMonitorData has no branch for a negative read at all. -/
theorem negative_read_silently_ignored :
    ((processMonitorData 1 (fun _ => 5) [5] (fun _ => .neg)).serviced = [0])
    ∧ (processMonitorData 1 (fun _ => 5) [5] (fun _ => .neg)).clientFds 0 = 5
    ∧ (processMonitorData 1 (fun _ => 5) [5] (fun _ => .neg)).closedFds = []
    ∧ (processMonitorData 1 (fun _ => 5) [5] (fun _ => .neg)).errorLogs = []
    ∧ (processMonitorData 1 (fun _ => 5) [5] (fun _ => .neg)).displayed = [] := by
  decide

/-- Claim C9 (code divergence, evaluated at the failing input): on
SIGINT the handler does flip the running flag to false, and the flag is
the only variable it mutates, but it also writes one message to the
standard output stream from the signal-delivery context (and a non-
SIGINT signal produces a message without even touching the flag). -/
theorem signal_handler_writes_to_stdout :
    handleSignal SIGINT = ⟨some false, 1⟩
    ∧ (handleSignal SIGINT).stdoutMessages ≠ 0
    ∧ (handleSignal 15).runningSet = none
    ∧ (handleSignal 15).stdoutMessages ≠ 0 := by
  decide

/-- Claim C2: the handshake decides admission.  When accept succeeded
and the handshake read returned some bytes, then (a) if the C-string the
supervisor sees equals "ready_to_monitor" and the reply write succeeds,
the supervisor has written back exactly the nul-terminated token
"start_monitoring", activeClients is incremented, and the connection is
not closed; and (b) if the C-string differs from the token, nothing is
written back, the connection is closed, and activeClients is unchanged
(the slot never becomes active). -/
theorem handshake_decides_admission (st : SupState) (env : ConnEnv)
    (bytes : List Nat) (hacc : 0 ≤ env.acceptFd) (hread : env.readRes = .ok bytes) :
    (cString (bytes ++ [0]) = readyToMonitorBytes → env.writeOk = true →
        (handleNewConnection st env).2.wrote = some (startMonitoringBytes ++ [0]) ∧
        (handleNewConnection st env).1.activeClients = st.activeClients + 1 ∧
        (handleNewConnection st env).2.closedConn = false)
    ∧ (cString (bytes ++ [0]) ≠ readyToMonitorBytes →
        (handleNewConnection st env).2.wrote = none ∧
        (handleNewConnection st env).2.closedConn = true ∧
        (handleNewConnection st env).1.activeClients = st.activeClients) := by
  have hnl : ¬ env.acceptFd < 0 := not_lt.mpr hacc
  constructor
  · intro htok hw
    simp [handleNewConnection, hread, hnl, htok, hw]
  · intro htok
    simp [handleNewConnection, hread, hnl, htok]

/-- Witness for claim C2 at a concrete input: a peer on descriptor 4
sending exactly the readiness token, with a succeeding write, receives
the nul-terminated "start_monitoring" token and the counter goes 0 to 1;
a peer sending "hello" is closed with nothing written. -/
theorem handshake_decides_admission_witness :
    ((handleNewConnection ⟨[3], 3, fun _ => 0, 0, []⟩
        ⟨4, .ok readyToMonitorBytes, true⟩).2.wrote
      = some (startMonitoringBytes ++ [0])
    ∧ (handleNewConnection ⟨[3], 3, fun _ => 0, 0, []⟩
        ⟨4, .ok readyToMonitorBytes, true⟩).1.activeClients = 0 + 1)
    ∧ ((handleNewConnection ⟨[3], 3, fun _ => 0, 0, []⟩
        ⟨4, .ok [104, 101, 108, 108, 111], true⟩).2.wrote = none
    ∧ (handleNewConnection ⟨[3], 3, fun _ => 0, 0, []⟩
        ⟨4, .ok [104, 101, 108, 108, 111], true⟩).2.closedConn = true) := by
  have hgood := handshake_decides_admission ⟨[3], 3, fun _ => 0, 0, []⟩
    ⟨4, .ok readyToMonitorBytes, true⟩ readyToMonitorBytes (by decide) rfl
  have hbad := handshake_decides_admission ⟨[3], 3, fun _ => 0, 0, []⟩
    ⟨4, .ok [104, 101, 108, 108, 111], true⟩ [104, 101, 108, 108, 111]
    (by decide) rfl
  have hg := hgood.1 (by decide) rfl
  have hb := hbad.2 (by decide)
  exact ⟨⟨hg.1, hg.2.1⟩, ⟨hb.1, hb.2.1⟩⟩

/-- Claim C6 counterexample: a spawn whose fork succeeds (pid 7) but
whose exec of the worker image fails does NOT yield a SpawnError in the
parent: the parent sees the positive pid and startMonitoring pushes 7
into the handle set, even though the child merely logged the exec
failure and exited; so the handle set is not restricted to successfully
executed workers. -/
theorem exec_failure_handle_enters_set :
    (spawnInterfaceMonitor ⟨"eth0", true, false, 7⟩).ret = 7
    ∧ (spawnInterfaceMonitor ⟨"eth0", true, false, 7⟩).childLoggedExecError = true
    ∧ (spawnInterfaceMonitor ⟨"eth0", true, false, 7⟩).childExited = true
    ∧ startMonitoring [⟨"eth0", true, false, 7⟩] = [7] := by
  decide

/-- Helper for claim C6: running the spawn loop with accumulator acc
appends exactly the pids of the fork-successful spawns, in order,
whether or not their exec succeeded. -/
theorem startMonitoringGo_eq (envs : List SpawnEnv) :
    ∀ acc : List Int, (∀ e ∈ envs, 0 < e.pid) →
      startMonitoringGo envs acc
        = acc ++ (envs.filter (fun e => e.forkOk)).map (fun e => (e.pid : Int)) := by
  induction envs with
  | nil => intro acc _; simp [startMonitoringGo]
  | cons e rest ih =>
    intro acc h
    have hpid : 0 < e.pid := h e (List.mem_cons_self e rest)
    have hrest : ∀ x ∈ rest, 0 < x.pid := fun x hx => h x (List.mem_cons_of_mem e hx)
    by_cases hf : e.forkOk = true
    · have hret : (spawnInterfaceMonitor e).ret = (e.pid : Int) := by
        cases he : e.execOk <;> simp [spawnInterfaceMonitor, hf, he]
      have hpos : (spawnInterfaceMonitor e).ret > 0 := by
        rw [hret]; exact_mod_cast hpid
      simp [startMonitoringGo, hpos, hret, ih _ hrest, hf]
      omega
    · have hret : (spawnInterfaceMonitor e).ret = -1 := by
        simp [spawnInterfaceMonitor, hf]
      have hpos : ¬ (spawnInterfaceMonitor e).ret > 0 := by
        rw [hret]; decide
      simp [startMonitoringGo, hpos, ih _ hrest, hf]

/-- Claim C6 (amended): the handle set produced by startMonitoring is
exactly the pids of the spawns whose fork succeeded, in order — a fork
failure (SpawnError -1) is excluded, but an exec failure is NOT: its pid
still enters the handle set while the failure is logged by the child,
which exits immediately. -/
theorem spawn_handle_set_characterization (envs : List SpawnEnv)
    (h : ∀ e ∈ envs, 0 < e.pid) :
    startMonitoring envs
      = (envs.filter (fun e => e.forkOk)).map (fun e => (e.pid : Int)) := by
  simpa [startMonitoring] using startMonitoringGo_eq envs [] h

/-- Witness for the amended claim C6 at a concrete input: three
resources, the second failing fork, the third failing exec — the handle
set is the pids of the first and third. -/
theorem spawn_handle_set_characterization_witness :
    startMonitoring
      [⟨"eth0", true, true, 5⟩, ⟨"eth1", false, true, 6⟩, ⟨"wlan0", true, false, 7⟩]
      = [(5 : Int), 7] :=
  (spawn_handle_set_characterization
    [⟨"eth0", true, true, 5⟩, ⟨"eth1", false, true, 6⟩, ⟨"wlan0", true, false, 7⟩]
    (by decide)).trans (by decide)

/-- Helper: one processMonitorData loop step either leaves the serviced
list alone (descriptor not ready) or appends exactly its own slot
index. -/
theorem pmdStep_serviced (readSet : List Int) (reads : Nat → DataRead)
    (acc : PmdResult) (i : Nat) :
    (pmdStep readSet reads acc i).serviced = acc.serviced ∨
    (pmdStep readSet reads acc i).serviced = acc.serviced ++ [i] := by
  unfold pmdStep
  split
  · cases reads i <;> simp
  · left; rfl

/-- Helper: one processMonitorData loop step never touches a slot other
than its own. -/
theorem pmdStep_clientFds_ne (readSet : List Int) (reads : Nat → DataRead)
    (acc : PmdResult) (i j : Nat) (hne : j ≠ i) :
    (pmdStep readSet reads acc i).clientFds j = acc.clientFds j := by
  unfold pmdStep
  split
  · cases reads i <;> simp [Function.update_noteq hne]
  · rfl

/-- Helper: the serviced list only ever grows along the loop. -/
theorem pmdGo_serviced_mono (readSet : List Int) (reads : Nat → DataRead) :
    ∀ (l : List Nat) (acc : PmdResult) (x : Nat), x ∈ acc.serviced →
      x ∈ (pmdGo readSet reads l acc).serviced := by
  intro l
  induction l with
  | nil => intro acc x hx; exact hx
  | cons i rest ih =>
    intro acc x hx
    show x ∈ (pmdGo readSet reads rest (pmdStep readSet reads acc i)).serviced
    apply ih
    rcases pmdStep_serviced readSet reads acc i with h | h
    · rw [h]; exact hx
    · rw [h]; exact List.mem_append_left _ hx

/-- Helper: a slot index in the loop range whose descriptor is in the
ready set ends up in the serviced list. -/
theorem pmdGo_mem_serviced (readSet : List Int) (reads : Nat → DataRead) :
    ∀ (l : List Nat) (acc : PmdResult) (i : Nat), i ∈ l →
      acc.clientFds i ∈ readSet → i ∈ (pmdGo readSet reads l acc).serviced := by
  intro l
  induction l with
  | nil => intro acc i hi _; exact absurd hi (List.not_mem_nil i)
  | cons j rest ih =>
    intro acc i hi hfd
    by_cases hij : i = j
    · subst hij
      show i ∈ (pmdGo readSet reads rest (pmdStep readSet reads acc i)).serviced
      apply pmdGo_serviced_mono
      have hs : (pmdStep readSet reads acc i).serviced = acc.serviced ++ [i] := by
        unfold pmdStep
        rw [if_pos hfd]
        cases reads i <;> rfl
      rw [hs]
      exact List.mem_append_right _ (List.mem_singleton.mpr rfl)
    · have hrest : i ∈ rest := by
        rcases List.mem_cons.mp hi with h | h
        · exact absurd h hij
        · exact h
      show i ∈ (pmdGo readSet reads rest (pmdStep readSet reads acc j)).serviced
      refine ih _ i hrest ?_
      rw [pmdStep_clientFds_ne readSet reads acc j i hij]
      exact hfd

/-- Helper: the loop visits slot indices in the order of its index list,
so a strictly ascending index list and a compatible accumulator yield a
strictly ascending serviced list. -/
theorem pmdGo_serviced_sorted (readSet : List Int) (reads : Nat → DataRead) :
    ∀ (l : List Nat) (acc : PmdResult),
      l.Pairwise (· < ·) → acc.serviced.Pairwise (· < ·) →
      (∀ x ∈ acc.serviced, ∀ y ∈ l, x < y) →
      (pmdGo readSet reads l acc).serviced.Pairwise (· < ·) := by
  intro l
  induction l with
  | nil => intro acc _ hacc _; exact hacc
  | cons i rest ih =>
    intro acc hl hacc hlt
    have hlrest : rest.Pairwise (· < ·) := (List.pairwise_cons.mp hl).2
    have hilt : ∀ y ∈ rest, i < y := (List.pairwise_cons.mp hl).1
    show ((pmdGo readSet reads rest (pmdStep readSet reads acc i)).serviced).Pairwise (· < ·)
    rcases pmdStep_serviced readSet reads acc i with h | h
    · refine ih _ hlrest (by rw [h]; exact hacc) ?_
      rw [h]
      intro x hx y hy
      exact hlt x hx y (List.mem_cons_of_mem i hy)
    · refine ih _ hlrest ?_ ?_
      · rw [h]
        apply List.pairwise_append.mpr
        refine ⟨hacc, by simp, ?_⟩
        intro x hx y hy
        rw [List.mem_singleton] at hy
        subst hy
        exact hlt x hx y (List.mem_cons_self y rest)
      · rw [h]
        intro x hx y hy
        rcases List.mem_append.mp hx with hx | hx
        · exact hlt x hx y (List.mem_cons_of_mem i hy)
        · rw [List.mem_singleton] at hx
          subst hx
          exact hilt y hy

/-- Claim C7 counterexample: an iteration in which the listening
descriptor is ready while the single active client (descriptor 5, in
the watch set and in the ready set with pending data) services NO slot
at all: the main-loop dispatch is an if/else, so simultaneous listener
readiness defers every pending connection to a later iteration,
contradicting the within-iteration service guarantee. -/
theorem pending_data_deferred_when_listener_ready :
    (5 : Int) ∈ (⟨[3, 5], 5, fun _ => 5, 1, []⟩ : SupState).masterSet
    ∧ (mainIteration ⟨[3, 5], 5, fun _ => 5, 1, []⟩
        ⟨true, ⟨4, .ok readyToMonitorBytes, true⟩, [5], fun _ => .pos [104]⟩).2 = [] := by
  decide

/-- Claim C7 (amended): within one multiplexer iteration the serviced
slot indices are strictly ascending; and in every iteration whose
listening channel is NOT ready, each slot below activeClients whose
descriptor is in the iteration's ready set is serviced in that very
iteration.  (When the listening channel is simultaneously ready, the
dispatch routes to the accept path and services no data slot, deferring
pending data to a later iteration.) -/
theorem mainIteration_service_order (st : SupState) (env : IterEnv) :
    (mainIteration st env).2.Pairwise (· < ·) ∧
    (env.serverReady = false →
      ∀ i, i < st.activeClients → st.clientFds i ∈ env.readSet →
        i ∈ (mainIteration st env).2) := by
  constructor
  · by_cases hs : env.serverReady = true
    · simp [mainIteration, hs]
    · simp only [mainIteration, hs, if_false, Bool.false_eq_true]
      apply pmdGo_serviced_sorted
      · exact List.pairwise_lt_range _
      · exact List.Pairwise.nil
      · intro x hx
        exact absurd hx (List.not_mem_nil x)
  · intro hsf i hi hfd
    simp only [mainIteration, hsf, if_false, Bool.false_eq_true]
    exact pmdGo_mem_serviced env.readSet env.reads _ _ i (List.mem_range.mpr hi) hfd

/-- Witness for the amended claim C7 at a concrete input: two active
clients on descriptors 5 and 6; the listener is idle and descriptor 6
is ready, so slot 1 is serviced in this iteration. -/
theorem mainIteration_service_order_witness :
    1 ∈ (mainIteration ⟨[3, 5, 6], 6, fun k => if k = 0 then 5 else 6, 2, []⟩
          ⟨false, ⟨-1, .err, false⟩, [6], fun _ => .pos [104]⟩).2 :=
  (mainIteration_service_order
      ⟨[3, 5, 6], 6, fun k => if k = 0 then 5 else 6, 2, []⟩
      ⟨false, ⟨-1, .err, false⟩, [6], fun _ => .pos [104]⟩).2
    rfl 1 (by decide) (by decide)

/-- Helper: folding FD_CLR over a list of descriptors only removes
elements, never adds any. -/
theorem foldl_fdClr_subset :
    ∀ (l : List Int) (s : List Int) (x : Int),
      x ∈ l.foldl (fun t fd => fdClr fd t) s → x ∈ s := by
  intro l
  induction l with
  | nil => intro s x hx; exact hx
  | cons a rest ih =>
    intro s x hx
    have h1 : x ∈ fdClr a s := ih (fdClr a s) x hx
    rw [fdClr, List.mem_filter] at h1
    exact h1.1

/-- Helper: folding FD_CLR over a list of descriptors removes every
descriptor of that list from the set. -/
theorem foldl_fdClr_removes :
    ∀ (l : List Int) (s : List Int) (x : Int),
      x ∈ l → x ∉ l.foldl (fun t fd => fdClr fd t) s := by
  intro l
  induction l with
  | nil => intro s x hx; exact absurd hx (List.not_mem_nil x)
  | cons a rest ih =>
    intro s x hx hmem
    by_cases hxa : x = a
    · subst hxa
      have hsub : x ∈ fdClr x s := foldl_fdClr_subset rest (fdClr x s) x hmem
      rw [fdClr, List.mem_filter] at hsub
      simp at hsub
    · have hrest : x ∈ rest := by
        rcases List.mem_cons.mp hx with h | h
        · exact absurd h hxa
        · exact h
      exact ih (fdClr a s) x hrest hmem

/-- Claim C8: when cleanup (the Closed state of the shutdown
coordinator) finishes, the reaped-worker list has the same length as the
handle set of successfully spawned workers, every registry slot's
descriptor has been closed and removed from the watch set (so the
active-connection count is zero), the listening descriptor has been
closed, and the socket path unlink was attempted with a failure only
logged — cleanup always runs to completion. -/
theorem cleanup_drains (serverFd : Int) (activeClients : Nat)
    (clientFds : Nat → Int) (masterSet : List Int) (processIds : List Int)
    (killOk : Int → Bool) (unlinkOk : Bool) :
    (cleanup serverFd activeClients clientFds masterSet processIds
        killOk unlinkOk).reaped.length = processIds.length
    ∧ (∀ i, i < activeClients →
        clientFds i ∈ (cleanup serverFd activeClients clientFds masterSet
          processIds killOk unlinkOk).closedFds
        ∧ clientFds i ∉ (cleanup serverFd activeClients clientFds masterSet
          processIds killOk unlinkOk).masterSet)
    ∧ serverFd ∈ (cleanup serverFd activeClients clientFds masterSet
        processIds killOk unlinkOk).closedFds
    ∧ (unlinkOk = false →
        (cleanup serverFd activeClients clientFds masterSet processIds
          killOk unlinkOk).unlinkFailureLogged = true)
    ∧ (cleanup serverFd activeClients clientFds masterSet processIds
        killOk unlinkOk).completed = true := by
  refine ⟨rfl, ?_, ?_, ?_, rfl⟩
  · intro i hi
    have hmem : clientFds i ∈ (List.range activeClients).map clientFds :=
      List.mem_map.mpr ⟨i, List.mem_range.mpr hi, rfl⟩
    constructor
    · exact List.mem_append_left _ hmem
    · exact foldl_fdClr_removes _ masterSet _ hmem
  · exact List.mem_append_right _ (List.mem_singleton.mpr rfl)
  · intro hu
    show (!unlinkOk) = true
    rw [hu]
    rfl

/-- Witness for claim C8 at a concrete input: one client on descriptor
5, two worker handles, a failing unlink — both handles are reaped,
descriptor 5 is closed and leaves the watch set, the listening
descriptor 3 is closed, and the unlink failure is logged. -/
theorem cleanup_drains_witness :
    (cleanup 3 1 (fun _ => 5) [3, 5] [10, 11] (fun _ => true) false).reaped.length = 2
    ∧ (5 : Int) ∈ (cleanup 3 1 (fun _ => 5) [3, 5] [10, 11]
        (fun _ => true) false).closedFds
    ∧ (5 : Int) ∉ (cleanup 3 1 (fun _ => 5) [3, 5] [10, 11]
        (fun _ => true) false).masterSet
    ∧ (3 : Int) ∈ (cleanup 3 1 (fun _ => 5) [3, 5] [10, 11]
        (fun _ => true) false).closedFds
    ∧ (cleanup 3 1 (fun _ => 5) [3, 5] [10, 11]
        (fun _ => true) false).unlinkFailureLogged = true := by
  have h := cleanup_drains 3 1 (fun _ => 5) [3, 5] [10, 11] (fun _ => true) false
  have h0 := h.2.1 0 (by decide)
  exact ⟨h.1, h0.1, h0.2, h.2.2.1, h.2.2.2.1 rfl⟩

set_option maxRecDepth 10000 in
/-- Claim C10 counterexample: the read in processMonitorData requests a
full BUFFER_SIZE bytes, so it can return BUFFER_SIZE bytes none of
which is nul (e.g. on a stream that coalesced two reports); the buffer
forwarded to the display stream is then exactly those 256 bytes and
contains no nul terminator anywhere. -/
theorem full_buffer_read_has_no_terminator :
    (processMonitorData 1 (fun _ => 5) [5]
        (fun _ => .pos (List.replicate BUFFER_SIZE 1))).displayed
      = [List.replicate BUFFER_SIZE 1]
    ∧ (0 : Nat) ∉ List.replicate BUFFER_SIZE 1 := by
  constructor
  · rfl
  · simp [List.mem_replicate]

/-- Claim C10 (amended): for every positive read of strictly fewer than
BUFFER_SIZE bytes, the buffer forwarded to the display stream is
BUFFER_SIZE bytes long and contains a nul terminator (the bzero
beforehand zeroes the tail); only a read of exactly BUFFER_SIZE
nul-free bytes — which the read call can return, since it requests
BUFFER_SIZE bytes — escapes the guarantee. -/
theorem reportBuffer_nul_terminated (bytes : List Nat)
    (h : bytes.length < BUFFER_SIZE) :
    0 ∈ reportBuffer bytes ∧ (reportBuffer bytes).length = BUFFER_SIZE := by
  constructor
  · refine List.mem_append_right _ (List.mem_replicate.mpr ⟨?_, rfl⟩)
    omega
  · rw [reportBuffer, List.length_append, List.length_replicate]
    omega

/-- Witness for the amended claim C10 at a concrete input: a two-byte
report yields a 256-byte buffer containing a nul terminator. -/
theorem reportBuffer_nul_terminated_witness :
    0 ∈ reportBuffer [104, 105] ∧ (reportBuffer [104, 105]).length = BUFFER_SIZE :=
  reportBuffer_nul_terminated [104, 105] (by decide)

end NetworkMonitor
